import Mathlib

/-!
Verification development for the video-prompt-optimizer core:
the prompt analyzer (promptAnalyzer.ts), the prompt optimizer
(promptOptimizer.ts) and the scene-collection operations (scene.ts).

The TypeScript code is shallowly embedded: strings are Lean `String`s
(operated on through their character lists), JavaScript numbers are
modelled as exact rationals (every quantity the scorers compute is a
rational; `Math.round` is floor of x + 1/2, which agrees with JS for all
finite inputs), and the ASCII-only case conversions of the analyzed text
are modelled on ASCII, matching the `toUpperCase`/`toLowerCase` behavior
on the ASCII range the analyzer is documented to target.
-/

/-- Whitespace characters as matched by the regular expression class used
throughout the code (restricted to the ASCII range). -/
def isWsChar (c : Char) : Bool :=
  (c = ' ') || (c = '\t') || (c = '\n') || (c = '\r') || (c = '\x0b') || (c = '\x0c')

/-- Sentence-terminating characters of the readability splitter. -/
def isSentEndChar (c : Char) : Bool :=
  (c = '.') || (c = '!') || (c = '?')

/-- Split a character list at every character satisfying `p`, keeping empty
segments, as JavaScript single-character `String.split` does. -/
def splitEveryAux (p : Char → Bool) : List Char → List Char → List String
  | [], acc => [String.mk acc.reverse]
  | c :: cs, acc =>
    if p c then String.mk acc.reverse :: splitEveryAux p cs []
    else splitEveryAux p cs (c :: acc)

/-- Split a string at every character satisfying `p` (empty segments kept). -/
def splitEvery (p : Char → Bool) (s : String) : List String :=
  splitEveryAux p s.data []

/-- Split a string on maximal runs of characters satisfying `p`, as the
JavaScript regular-expression split on a one-or-more character class does:
interior empty segments are collapsed, while a leading or trailing run
still contributes one empty segment. -/
def jsSplitRuns (p : Char → Bool) (s : String) : List String :=
  let L := splitEvery p s
  if L.length ≤ 1 then L
  else
    (if L.head? = some ("") then [("")] else []) ++
      L.filter (fun t => decide (t ≠ (""))) ++
      (if L.getLast? = some ("") then [("")] else [])

/-- Characters remaining after stripping leading and trailing whitespace. -/
def trimChars (cs : List Char) : List Char :=
  (((cs.dropWhile isWsChar).reverse).dropWhile isWsChar).reverse

/-- JavaScript `String.prototype.trim` (ASCII whitespace). -/
def jsTrim (s : String) : String :=
  String.mk (trimChars s.data)

/-- ASCII lower-case conversion of one character, as `toLowerCase` acts on
the ASCII range. -/
def jsToLower (c : Char) : Char :=
  if c.isUpper then Char.ofNat (c.toNat + 32) else c

/-- ASCII upper-case conversion of one character, as `toUpperCase` acts on
the ASCII range. -/
def jsToUpper (c : Char) : Char :=
  if c.isLower then Char.ofNat (c.toNat - 32) else c

/-- JavaScript `toLowerCase` on a whole string (ASCII range). -/
def lowerStr (s : String) : String :=
  String.mk (s.data.map jsToLower)

/-- Substring test on character lists: does the list contain `sub` as a
contiguous segment? -/
def listIncludes (sub : List Char) : List Char → Bool
  | [] => sub.isEmpty
  | c :: cs => sub.isPrefixOf (c :: cs) || listIncludes sub cs

/-- JavaScript `String.prototype.includes`. -/
def jsIncludes (hay sub : String) : Bool :=
  listIncludes sub.data hay.data

/-- JavaScript `Math.round` on an exact rational: floor of x + 1/2 (JS
rounds halves toward positive infinity). -/
def jsRound (q : ℚ) : ℤ :=
  ⌊q + 1/2⌋

/-- The score clamp as written in the scorers:
`Math.max(0, Math.min(100, Math.round(score)))`. -/
def clampRoundCode (q : ℚ) : ℤ :=
  max 0 (min 100 (jsRound q))

/-- Numeric value of a digit run. -/
def digitsToNat (ds : List Char) : ℕ :=
  ds.foldl (fun a c => 10 * a + (c.toNat - 48)) 0

/-- JavaScript `parseInt` in base 10 on an already-trimmed string: optional
sign, then the longest digit run; `none` models `NaN`. -/
def jsParseInt : List Char → Option ℤ
  | '-' :: rest =>
    (if (rest.takeWhile Char.isDigit).isEmpty then none
     else some (-(digitsToNat (rest.takeWhile Char.isDigit) : ℤ)))
  | '+' :: rest =>
    (if (rest.takeWhile Char.isDigit).isEmpty then none
     else some ((digitsToNat (rest.takeWhile Char.isDigit) : ℤ)))
  | cs =>
    (if (cs.takeWhile Char.isDigit).isEmpty then none
     else some ((digitsToNat (cs.takeWhile Char.isDigit) : ℤ)))

/-- The `parseInt(v) || fallback` idiom: `NaN` and `0` are falsy. -/
def parseIntOrFallback (s : String) (fb : ℤ) : ℤ :=
  match jsParseInt s.data with
  | none => fb
  | some n => if n = 0 then fb else n

/-- Decimal digits of a natural number (fuel-driven helper; the fuel `n + 1`
always suffices). -/
def natToCharsAux : ℕ → ℕ → List Char
  | 0, _ => []
  | fuel + 1, n =>
    if n < 10 then [Char.ofNat (48 + n)]
    else natToCharsAux fuel (n / 10) ++ [Char.ofNat (48 + n % 10)]

/-- JavaScript number-to-string for integers. -/
def intToString (i : ℤ) : String :=
  if i < 0 then String.mk ('-' :: natToCharsAux (i.natAbs + 1) i.natAbs)
  else String.mk (natToCharsAux (i.toNat + 1) i.toNat)

/-! ## Data model (types/scene.ts) -/

/-- One dimension's evaluation. -/
structure AnalysisBlock where
  score : ℤ
  issues : List String
  suggestions : List String
deriving DecidableEq, Repr

/-- Four-tier readiness label. -/
inductive Readiness where
  | productionReady
  | good
  | needsWork
  | poor
deriving DecidableEq, Repr

/-- Overall block of a prompt analysis. -/
structure OverallBlock where
  score : ℤ
  readiness : Readiness
deriving DecidableEq, Repr

/-- Result of analyzing one scene's prompts. -/
structure PromptAnalysis where
  image : AnalysisBlock
  video : AnalysisBlock
  voice : AnalysisBlock
  overall : OverallBlock
deriving DecidableEq, Repr

/-- A scene of the collection. -/
structure Scene where
  id : String
  scene_order : ℤ
  image_prompt : String
  narration_script : String
  analysis : Option PromptAnalysis
deriving DecidableEq, Repr

/-! ## Prompt analyzer (utils/promptAnalyzer.ts) -/

/-- Topic cluster `educational` of `TOPIC_KEYWORDS`. -/
def educationalKeywords : List String :=
  [("learn"), ("explain"), ("understand"), ("concept"), ("theory"), ("principle"), ("definition")]

/-- Topic cluster `visual` of `TOPIC_KEYWORDS`. -/
def visualTopicKeywords : List String :=
  [("visualize"), ("illustrate"), ("display"), ("show"), ("demonstrate"), ("present"), ("reveal")]

/-- Topic cluster `motion` of `TOPIC_KEYWORDS`. -/
def motionTopicKeywords : List String :=
  [("move"), ("transition"), ("flow"), ("slide"), ("zoom"), ("pan"), ("rotate"), ("animate")]

/-- Topic cluster `engagement` of `TOPIC_KEYWORDS`. -/
def engagementKeywords : List String :=
  [("interactive"), ("engaging"), ("compelling"), ("captivating"), ("dynamic"), ("vibrant")]

/-- All four topic clusters, in object insertion order. -/
def topicKeywordLists : List (List String) :=
  [educationalKeywords, visualTopicKeywords, motionTopicKeywords, engagementKeywords]

/-- The `MOTION_VERBS` list. -/
def motionVerbs : List String :=
  [("moves"), ("flows"), ("transitions"), ("slides"), ("zooms"), ("pans"), ("rotates"), ("animates"),
   ("shifts"), ("transforms"), ("morphs"), ("evolves"), ("emerges"), ("unfolds"), ("reveals")]

/-- Positive sentiment lexicon. -/
def positiveWords : List String :=
  [("good"), ("great"), ("excellent"), ("amazing"), ("wonderful"), ("perfect"), ("best"),
   ("beautiful"), ("clear"), ("easy")]

/-- Negative sentiment lexicon. -/
def negativeWords : List String :=
  [("bad"), ("terrible"), ("awful"), ("horrible"), ("wrong"), ("difficult"), ("hard"),
   ("confusing"), ("unclear")]

/-- Embedding of `calculateSentiment`: lower-case the text, split on whitespace, +1 per
positive-list token and -1 per negative-list token. -/
def calculateSentiment (text : String) : ℤ :=
  (jsSplitRuns isWsChar (lowerStr text)).foldl
    (fun sc w =>
      sc + (if positiveWords.contains w then 1 else 0)
         - (if negativeWords.contains w then 1 else 0))
    0

/-- Vowel characters counted by the crude syllable approximation. -/
def isVowelChar (c : Char) : Bool :=
  ['a', 'e', 'i', 'o', 'u', 'A', 'E', 'I', 'O', 'U'].contains c

/-- Number of vowel characters of a word (the code strips non-vowels with a
regular expression and takes the length of the remainder). -/
def countVowels (w : String) : ℕ :=
  (w.data.filter isVowelChar).length

/-- Sentence count of `calculateFleschKincaid`: segments split on sentence
punctuation whose trim is non-empty. -/
def fkSentences (text : String) : ℕ :=
  ((jsSplitRuns isSentEndChar text).filter
    (fun seg => decide (trimChars seg.data ≠ []))).length

/-- Word count of `calculateFleschKincaid`: non-empty whitespace tokens. -/
def fkWords (text : String) : ℕ :=
  ((jsSplitRuns isWsChar text).filter (fun w => decide (w.data ≠ []))).length

/-- Syllable count of `calculateFleschKincaid`: the fold runs over every
whitespace-split segment — including the empty boundary segments a leading
or trailing space produces, each contributing `max 1 0 = 1`. -/
def fkSyllables (text : String) : ℕ :=
  (jsSplitRuns isWsChar text).foldl (fun count w => count + max 1 (countVowels w)) 0

/-- Embedding of `calculateFleschKincaid`, exactly as written. -/
def calculateFleschKincaid (text : String) : ℚ :=
  if fkSentences text = 0 ∨ fkWords text = 0 then 0
  else (206.835 : ℚ) - (1.015 : ℚ) * ((fkWords text : ℚ) / (fkSentences text : ℚ))
       - (84.6 : ℚ) * ((fkSyllables text : ℚ) / (fkWords text : ℚ))

/-- Stopword determiners excluded by the proper-noun heuristic. -/
def properNounStopwords : List String :=
  [("The"), ("A"), ("An"), ("This"), ("That")]

/-- Embedding of `detectProperNouns`, exactly as written: whitespace tokens of length > 2
whose first character is unchanged by `toUpperCase` and whose remaining
characters are unchanged by `toLowerCase`, minus the stopwords. -/
def detectProperNouns (text : String) : List String :=
  (jsSplitRuns isWsChar text).filter
    (fun w =>
      decide (2 < w.length) &&
      (match w.data with
       | [] => false
       | c :: rest => decide (jsToUpper c = c) && decide (rest.map jsToLower = rest)) &&
      !(properNounStopwords.contains w))

/-- Embedding of `scoreTopicRelevance`: 10 points per topic keyword contained in the
lower-cased text, capped at 100. -/
def scoreTopicRelevance (text : String) : ℚ :=
  let lower := lowerStr text
  let hits : ℕ := topicKeywordLists.foldl
    (fun acc ks => acc + (ks.filter (fun k => jsIncludes lower k)).length) 0
  min 100 (10 * (hits : ℚ))

/-- Visual-style keywords checked by the image scorer. -/
def visualKeywords : List String :=
  [("color"), ("style"), ("lighting"), ("composition"), ("detailed"), ("realistic"), ("artistic")]

/-- Raw additive total of the image scorer, before clamping and rounding. -/
def imageRaw (prompt : String) : ℚ :=
  50
  + (if prompt.length < 50 then -20 else if 200 < prompt.length then 10 else 0)
  + (if visualKeywords.any (fun k => jsIncludes (lowerStr prompt) k) then 15 else -15)
  + scoreTopicRelevance prompt * (0.2 : ℚ)
  + (if 3 < (detectProperNouns prompt).length then -10 else 0)

/-- Embedding of `analyzeImage`: the issue and suggestion lists follow the rule order of
the code; the score is the clamped rounding of the raw total. -/
def analyzeImage (prompt : String) : AnalysisBlock :=
  let tooShort := prompt.length < 50
  let hasVisual := visualKeywords.any (fun k => jsIncludes (lowerStr prompt) k)
  let manyProper := 3 < (detectProperNouns prompt).length
  { score := clampRoundCode (imageRaw prompt),
    issues :=
      (if tooShort then [("Image prompt too short")] else []) ++
      (if hasVisual then [] else [("Missing visual style descriptors")]) ++
      (if manyProper then [("Many proper nouns may need pronunciation guide")] else []),
    suggestions :=
      (if tooShort then [("Add more visual descriptors and details")] else []) ++
      (if hasVisual then [] else [("Specify art style, colors, or lighting")]) ++
      (if manyProper then [("Consider simplifying technical terms")] else []) }

/-- Duration-indicator keywords of the video scorer. -/
def durationKeywords : List String :=
  [("second"), ("duration"), ("time"), ("quick"), ("slow"), ("smooth")]

/-- Raw additive total of the video scorer. -/
def videoRaw (prompt : String) : ℚ :=
  50
  + (if motionVerbs.any (fun v => jsIncludes (lowerStr prompt) v) then 20 else -25)
  + (if durationKeywords.any (fun k => jsIncludes (lowerStr prompt) k) then 15 else -15)
  + (if engagementKeywords.any (fun k => jsIncludes (lowerStr prompt) k) then 10 else 0)
  + (if prompt.length < 30 then -15 else 0)

/-- Embedding of `analyzeVideo`. -/
def analyzeVideo (prompt : String) : AnalysisBlock :=
  let hasMotion := motionVerbs.any (fun v => jsIncludes (lowerStr prompt) v)
  let hasDuration := durationKeywords.any (fun k => jsIncludes (lowerStr prompt) k)
  let tooBrief := prompt.length < 30
  { score := clampRoundCode (videoRaw prompt),
    issues :=
      (if hasMotion then [] else [("No motion described")]) ++
      (if hasDuration then [] else [("Duration unclear")]) ++
      (if tooBrief then [("Video description too brief")] else []),
    suggestions :=
      (if hasMotion then [] else [("Add motion verbs like \x22flows\x22, \x22transitions\x22, \x22zooms\x22")]) ++
      (if hasDuration then [] else [("Specify timing like \x22smooth 4-second transition\x22")]) ++
      (if tooBrief then [("Describe the visual sequence in more detail")] else []) }

/-- Raw additive total of the voice scorer. -/
def voiceRaw (script : String) : ℚ :=
  50
  + (if script.length < 50 then -25 else if 500 < script.length then -10 else 15)
  + (if calculateFleschKincaid script < 60 then -20
     else if 80 < calculateFleschKincaid script then 15 else 0)
  + (if calculateSentiment script < -2 then -15
     else if 2 < calculateSentiment script then 10 else 0)
  + scoreTopicRelevance script * (0.15 : ℚ)
  + (if 5 < (detectProperNouns script).length then -10 else 0)

/-- Embedding of `analyzeVoice`. -/
def analyzeVoice (script : String) : AnalysisBlock :=
  let tooShort := script.length < 50
  let tooLong := 500 < script.length
  let complexLang := calculateFleschKincaid script < 60
  let negativeTone := calculateSentiment script < -2
  let manyProper := 5 < (detectProperNouns script).length
  { score := clampRoundCode (voiceRaw script),
    issues :=
      (if tooShort then [("Narration too short")]
       else if tooLong then [("Narration might be too long for video segment")] else []) ++
      (if complexLang then [("Complex language detected")] else []) ++
      (if negativeTone then [("Negative tone detected")] else []) ++
      (if manyProper then [("Many technical terms may need pronunciation guide")] else []),
    suggestions :=
      (if tooShort then [("Expand explanation for better understanding")]
       else if tooLong then [("Consider breaking into shorter segments")] else []) ++
      (if complexLang then [("Simplify vocabulary and sentence structure")] else []) ++
      (if negativeTone then [("Use more positive, encouraging language")] else []) ++
      (if manyProper then [("Add phonetic spelling for complex terms")] else []) }

/-- Readiness thresholds, inclusive lower bounds at 80 / 60 / 40. -/
def readinessOf (score : ℤ) : Readiness :=
  if 80 ≤ score then Readiness.productionReady
  else if 60 ≤ score then Readiness.good
  else if 40 ≤ score then Readiness.needsWork
  else Readiness.poor

/-- Embedding of `PromptAnalyzer.analyzePrompt`, the analysis entry point. -/
def analyzePrompt (imagePrompt script : String) : PromptAnalysis :=
  let imageAnalysis := analyzeImage imagePrompt
  let videoAnalysis := analyzeVideo imagePrompt
  let voiceAnalysis := analyzeVoice script
  let overallScore := jsRound
    (((imageAnalysis.score + videoAnalysis.score + voiceAnalysis.score : ℤ) : ℚ) / 3)
  { image := imageAnalysis,
    video := videoAnalysis,
    voice := voiceAnalysis,
    overall := { score := overallScore, readiness := readinessOf overallScore } }

/-! ## Prompt optimizer (utils/promptOptimizer.ts) -/

/-- Visual-descriptor words checked by `optimizeImagePrompt`. -/
def visualCheckWords : List String :=
  [("show"), ("visualize"), ("illustrate"), ("display")]

/-- Style keywords checked by `optimizeImagePrompt`. -/
def styleCheckWords : List String :=
  [("detailed"), ("realistic"), ("professional"), ("clean"), ("modern")]

/-- Remove one trailing dot, as the regular-expression replace of a final
period does. -/
def stripTrailingDot (s : String) : String :=
  match s.data.getLast? with
  | some '.' => String.mk s.data.dropLast
  | _ => s

/-- Embedding of `PromptOptimizer.optimizeImagePrompt`. -/
def optimizeImagePrompt (prompt : String) : String :=
  if jsTrim prompt = ("") then ("")
  else
    let o1 := if !(jsIncludes (lowerStr prompt) ("educational"))
      then ("Educational content: ") ++ prompt else prompt
    let o2 := if !(visualCheckWords.any (fun w => jsIncludes (lowerStr o1) w))
      then stripTrailingDot o1 ++ (". Visualize this with clear, professional imagery.") else o1
    let o3 := if !(styleCheckWords.any (fun w => jsIncludes (lowerStr o2) w))
      then o2 ++ (" Use detailed, professional style with clean modern design.") else o2
    jsTrim o3

/-- Motion words checked by `optimizeVideoPrompt`. -/
def motionCheckWords : List String :=
  [("movement"), ("animation"), ("transition"), ("flow"), ("dynamic"), ("moving")]

/-- Embedding of `PromptOptimizer.optimizeVideoPrompt`. -/
def optimizeVideoPrompt (prompt : String) : String :=
  if jsTrim prompt = ("") then ("")
  else
    let o1 := if !(jsIncludes (lowerStr prompt) ("scene")) &&
        !(jsIncludes (lowerStr prompt) ("sequence"))
      then prompt ++ (" Structure as engaging scenes with smooth transitions.") else prompt
    let o2 := if !(motionCheckWords.any (fun w => jsIncludes (lowerStr o1) w))
      then o1 ++ (" Include smooth transitions and dynamic movement.") else o1
    let o3 := if !(jsIncludes (lowerStr o2) ("brief")) && !(jsIncludes (lowerStr o2) ("quick")) &&
        !(jsIncludes (lowerStr o2) ("short"))
      then o2 ++ (" Keep scenes brief for optimal video generation (4-5 seconds each).") else o2
    jsTrim o3

/-- Educational-tone words checked by `optimizeVoiceScript`. -/
def eduToneWords : List String :=
  [("learn"), ("understand"), ("discover"), ("explore"), ("knowledge")]

/-- Embedding of `PromptOptimizer.optimizeVoiceScript`. -/
def optimizeVoiceScript (script : String) : String :=
  if jsTrim script = ("") then ("")
  else
    let o1 := if !(jsIncludes (lowerStr script) ("explain")) &&
        !(jsIncludes (lowerStr script) ("narrat"))
      then script ++ (" Include clear narration that explains key concepts.") else script
    let o2 := if !(eduToneWords.any (fun w => jsIncludes (lowerStr o1) w))
      then o1 ++ (" This helps you understand and learn the concept better.") else o1
    let o3 := if script.length < 50
      then o2 ++ (" Provide a clear, detailed explanation of the key ideas and concepts.") else o2
    jsTrim o3

/-! ## Scene collection operations (VideoPromptOptimizer component) -/

/-- Embedding of `removeScene`: a single-scene collection refuses the removal (the first
component is the refusal flag shown to the user) and is left unchanged;
otherwise the matching scenes are filtered out and the rest renumbered
densely from 1. -/
def removeScene (scenes : List Scene) (sceneId : String) : Bool × List Scene :=
  if scenes.length ≤ 1 then (true, scenes)
  else
    (false,
      ((scenes.filter (fun s => decide (s.id ≠ sceneId))).enum).map
        (fun p => { p.2 with scene_order := (p.1 : ℤ) + 1 }))

/-- Double every embedded double quote, as the export's replace does. -/
def quoteEscape : List Char → List Char
  | [] => []
  | c :: cs => if c = '"' then '"' :: '"' :: quoteEscape cs else c :: quoteEscape cs

/-- One exported field: embedded quotes doubled, then wrapped in quotes. -/
def quoteField (s : String) : String :=
  String.mk ('"' :: quoteEscape s.data ++ ['"'])

/-- The fixed header row of the interchange format. -/
def csvHeader : String :=
  ("scene_order,image_prompt,narration_script")

/-- Embedding of `exportToCSV`: header row, then one row per scene with the order number
unquoted and both text fields quote-escaped, joined by newlines. -/
def exportToCSV (scenes : List Scene) : String :=
  String.intercalate ("\n")
    (csvHeader ::
      scenes.map (fun s =>
        intToString s.scene_order ++ (",") ++ quoteField s.image_prompt ++ (",") ++
          quoteField s.narration_script))

/-- Strip one leading and one trailing double quote, as the import's
anchored replace does. -/
def stripQuotes (s : String) : String :=
  let cs := match s.data with
    | '"' :: rest => rest
    | cs => cs
  if cs.getLast? = some '"' then String.mk cs.dropLast else String.mk cs

/-- The lines the import keeps: split on every newline, blank lines
discarded. -/
def nonBlankLines (csv : String) : List String :=
  (splitEvery (fun c => c = '\n') csv).filter (fun l => decide (jsTrim l ≠ ("")))

/-- One imported cell: trimmed, then unquoted. -/
def importCell (v : String) : String :=
  stripQuotes (jsTrim v)

/-- The parsing core of `handleCSVImport`: the first non-blank line must
contain the three required headers; every further non-blank line is split
on every comma and becomes one scene, the order falling back to the 1-based
row position when unparsable or zero. The scene ids, produced from a clock
in the code, are modelled by the row position. -/
def importCSV (csv : String) : Except String (List Scene) :=
  match nonBlankLines csv with
  | [] => Except.error ("Failed to import CSV")
  | header :: dataLines =>
    let headers := (splitEvery (fun c => c = ',') header).map jsTrim
    if headers.contains ("scene_order") && headers.contains ("image_prompt") &&
        headers.contains ("narration_script") then
      Except.ok ((dataLines.enum).map (fun p =>
        let values := (splitEvery (fun c => c = ',') p.2).map importCell
        { id := intToString ((p.1 : ℤ) + 1),
          scene_order := parseIntOrFallback (values.getD 0 ("")) ((p.1 : ℤ) + 1),
          image_prompt := values.getD 1 (""),
          narration_script := values.getD 2 (""),
          analysis := none }))
    else Except.error ("Invalid CSV format. Required headers: scene_order, image_prompt, narration_script")

/-- The interchange triple of a scene: the fields the round-trip law is
about. -/
def sceneTriple (s : Scene) : ℤ × String × String :=
  (s.scene_order, s.image_prompt, s.narration_script)

/-- Embedding of `getOverallAnalysis`: `none` when no scene carries an analysis,
otherwise the rounded mean of the analyzed scenes' overall scores together
with the readiness label recomputed from the same thresholds. -/
def getOverallAnalysis (scenes : List Scene) : Option OverallBlock :=
  let analyzedScenes := scenes.filter (fun s => s.analysis.isSome)
  if analyzedScenes.length = 0 then none
  else
    let totalScore : ℤ := analyzedScenes.foldl
      (fun sum s => sum + (match s.analysis with
        | some a => a.overall.score
        | none => 0)) 0
    let averageScore := jsRound ((totalScore : ℚ) / (analyzedScenes.length : ℚ))
    some { score := averageScore,
           readiness :=
             if 80 ≤ averageScore then Readiness.productionReady
             else if 60 ≤ averageScore then Readiness.good
             else if 40 ≤ averageScore then Readiness.needsWork
             else Readiness.poor }

/-! ## Specification-side definitions

These follow the words of the specification claims (not the code) and are
compared with the code-side definitions above. -/

/-- Sentence count as the specification claim words it: the non-empty
segments after splitting on sentence punctuation. -/
def fcSentences (text : String) : ℕ :=
  ((jsSplitRuns isSentEndChar text).filter (fun seg => decide (seg ≠ ("")))).length

/-- Syllable count as the specification claim words it: the sum over the
words (the non-empty whitespace tokens) of `max 1 (vowel count)`. -/
def fcSyllables (text : String) : ℕ :=
  (((jsSplitRuns isWsChar text).filter (fun w => decide (w ≠ ("")))).map
    (fun w => max 1 (countVowels w))).sum

/-- Readability as the specification claim words it; the word count of the
claim agrees with the code's `fkWords`. -/
def fleschClaimed (text : String) : ℚ :=
  if fcSentences text = 0 ∨ fkWords text = 0 then 0
  else (206.835 : ℚ) - (1.015 : ℚ) * ((fkWords text : ℚ) / (fcSentences text : ℚ))
       - (84.6 : ℚ) * ((fcSyllables text : ℚ) / (fkWords text : ℚ))

/-- Sentence count as amended: segments containing at least one
non-whitespace character. -/
def faSentences (text : String) : ℕ :=
  ((jsSplitRuns isSentEndChar text).filter
    (fun seg => seg.data.any (fun c => !(isWsChar c)))).length

/-- Syllable count as amended: summed over all whitespace-split segments —
the empty boundary segments produced by leading or trailing whitespace each
count as one syllable. -/
def faSyllables (text : String) : ℕ :=
  ((jsSplitRuns isWsChar text).map (fun w => max 1 (countVowels w))).sum

/-- Readability as amended. -/
def fleschAmended (text : String) : ℚ :=
  if faSentences text = 0 ∨ fkWords text = 0 then 0
  else (206.835 : ℚ) - (1.015 : ℚ) * ((fkWords text : ℚ) / (faSentences text : ℚ))
       - (84.6 : ℚ) * ((faSyllables text : ℚ) / (fkWords text : ℚ))

/-- Proper nouns as the specification claim words it: whitespace tokens of
length > 2 whose first character is an uppercase letter and whose remaining
characters are all lowercase letters, minus the stopwords. -/
def properNounsClaimed (text : String) : List String :=
  (jsSplitRuns isWsChar text).filter
    (fun w =>
      decide (2 < w.length) &&
      (match w.data with
       | [] => false
       | c :: rest => c.isUpper && rest.all Char.isLower) &&
      !(properNounStopwords.contains w))

/-- Proper nouns as amended: the first character must not be a lowercase
ASCII letter and the remaining characters must contain no uppercase ASCII
letter, so digits and punctuation satisfy both conditions. -/
def properNounsAmended (text : String) : List String :=
  (jsSplitRuns isWsChar text).filter
    (fun w =>
      decide (2 < w.length) &&
      (match w.data with
       | [] => false
       | c :: rest => !(c.isLower) && rest.all (fun d => !(d.isUpper))) &&
      !(properNounStopwords.contains w))

/-! ## Helper lemmas -/

theorem trimChars_eq_nil_iff {cs : List Char} :
    trimChars cs = [] ↔ ∀ c ∈ cs, isWsChar c = true := by
  unfold trimChars
  rw [List.reverse_eq_nil_iff, List.dropWhile_eq_nil_iff]
  constructor
  · intro h c hc
    have hsplit := List.takeWhile_append_dropWhile isWsChar cs
    rw [← hsplit] at hc
    rcases List.mem_append.mp hc with h1 | h2
    · exact List.mem_takeWhile_imp h1
    · exact h c (List.mem_reverse.mpr h2)
  · intro h c hc
    exact h c ((List.dropWhile_sublist isWsChar).mem (List.mem_reverse.mp hc))

theorem jsTrim_eq_empty {s : String} (h : ∀ c ∈ s.data, isWsChar c = true) :
    jsTrim s = ("") := by
  unfold jsTrim
  rw [trimChars_eq_nil_iff.mpr h]

theorem trimChars_ne_nil_iff {cs : List Char} :
    (trimChars cs ≠ []) ↔ cs.any (fun c => !(isWsChar c)) = true := by
  rw [ne_eq, trimChars_eq_nil_iff]
  simp [List.any_eq_true]

theorem jsRound_nonneg {q : ℚ} (h : 0 ≤ q) : 0 ≤ jsRound q := by
  unfold jsRound
  rw [Int.le_floor]
  push_cast
  linarith

theorem jsRound_le_100 {q : ℚ} (h : q ≤ 100) : jsRound q ≤ 100 := by
  unfold jsRound
  rw [← Int.lt_add_one_iff, Int.floor_lt]
  push_cast
  linarith

theorem clampRoundCode_nonneg (q : ℚ) : 0 ≤ clampRoundCode q :=
  le_max_left 0 _

theorem clampRoundCode_le_100 (q : ℚ) : clampRoundCode q ≤ 100 := by
  unfold clampRoundCode
  rw [max_le_iff]
  exact ⟨by norm_num, min_le_left 100 _⟩

theorem clampRoundCode_eq_round_clamp (q : ℚ) :
    clampRoundCode q = jsRound (max 0 (min 100 q)) := by
  unfold clampRoundCode
  rcases le_or_lt q 0 with h0 | h0
  · rw [min_eq_right (by linarith : q ≤ 100), max_eq_left h0]
    have h1 : jsRound q ≤ jsRound 0 := Int.floor_le_floor (by linarith)
    have h2 : jsRound (0 : ℚ) = 0 := by
      unfold jsRound
      rw [Int.floor_eq_iff] <;> norm_num
    rw [h2] at h1
    rw [min_eq_right (by omega : jsRound q ≤ 100), max_eq_left h1, h2]
  · rcases le_or_lt q 100 with h100 | h100
    · rw [min_eq_right h100, max_eq_right (by linarith : (0 : ℚ) ≤ q)]
      have h1 : 0 ≤ jsRound q := jsRound_nonneg (by linarith)
      have h2 : jsRound q ≤ 100 := jsRound_le_100 h100
      rw [min_eq_right h2, max_eq_right h1]
    · rw [min_eq_left (by linarith : (100 : ℚ) ≤ q),
        max_eq_right (by norm_num : (0 : ℚ) ≤ 100)]
      have h1 : (100 : ℤ) ≤ jsRound q := by
        unfold jsRound
        rw [Int.le_floor]
        push_cast
        linarith
      have h2 : jsRound (100 : ℚ) = 100 := by
        unfold jsRound
        rw [Int.floor_eq_iff] <;> norm_num
      rw [min_eq_left h1, max_eq_right (by omega : (0 : ℤ) ≤ 100), h2]

theorem foldl_add_max_eq_sum (v : String → ℕ) :
    ∀ (L : List String) (a : ℕ),
      L.foldl (fun count w => count + max 1 (v w)) a
        = a + (L.map (fun w => max 1 (v w))).sum := by
  intro L
  induction L with
  | nil => intro a; simp
  | cons x xs ih =>
    intro a
    simp only [List.foldl_cons, List.map_cons, List.sum_cons, ih]
    omega

theorem jsToUpper_fixed_iff (c : Char) : jsToUpper c = c ↔ c.isLower = false := by
  unfold jsToUpper
  by_cases hc : c.isLower
  · simp only [hc, if_true]
    constructor
    · intro he
      exfalso
      simp [Char.isLower] at hc
      obtain ⟨h1, h2⟩ := hc
      have h1' : 97 ≤ c.toNat := h1
      have h2' : c.toNat ≤ 122 := h2
      have hv : (c.toNat - 32).isValidChar := by
        unfold Nat.isValidChar
        left
        omega
      have ht : (Char.ofNat (c.toNat - 32)).toNat = c.toNat - 32 := by
        unfold Char.ofNat
        rw [dif_pos hv]
        rfl
      rw [he] at ht
      omega
    · intro he
      exact absurd he (by simp)
  · simp [hc]

theorem jsToLower_fixed_iff (c : Char) : jsToLower c = c ↔ c.isUpper = false := by
  unfold jsToLower
  by_cases hc : c.isUpper
  · simp only [hc, if_true]
    constructor
    · intro he
      exfalso
      simp [Char.isUpper] at hc
      obtain ⟨h1, h2⟩ := hc
      have h1' : 65 ≤ c.toNat := h1
      have h2' : c.toNat ≤ 90 := h2
      have hv : (c.toNat + 32).isValidChar := by
        unfold Nat.isValidChar
        left
        omega
      have ht : (Char.ofNat (c.toNat + 32)).toNat = c.toNat + 32 := by
        unfold Char.ofNat
        rw [dif_pos hv]
        rfl
      rw [he] at ht
      omega
    · intro he
      exact absurd he (by simp)
  · simp [hc]

theorem map_eq_self_iff_all_fixed {f : Char → Char} :
    ∀ {l : List Char}, l.map f = l ↔ ∀ c ∈ l, f c = c := by
  intro l
  induction l with
  | nil => simp
  | cons x xs ih =>
    simp only [List.map_cons, List.cons.injEq, List.mem_cons]
    constructor
    · rintro ⟨hx, hxs⟩ c (rfl | hc)
      · exact hx
      · exact (ih.mp hxs) c hc
    · intro h
      exact ⟨h x (Or.inl rfl), ih.mpr (fun c hc => h c (Or.inr hc))⟩

theorem filter_id_eq_length_le_one {f : Scene → String} {a : String} :
    ∀ {l : List Scene}, (l.map f).Nodup →
      (l.filter (fun x => decide (f x = a))).length ≤ 1 := by
  intro l
  induction l with
  | nil => simp
  | cons x xs ih =>
    intro hnd
    rw [List.map_cons, List.nodup_cons] at hnd
    obtain ⟨hx, hxs⟩ := hnd
    rw [List.filter_cons]
    by_cases hfx : f x = a
    · rw [if_pos (by simp [hfx])]
      have hnil : xs.filter (fun y => decide (f y = a)) = [] := by
        rw [List.filter_eq_nil_iff]
        intro y hy
        simp only [decide_eq_true_eq]
        intro hfy
        exact hx (List.mem_map.mpr ⟨y, hy, by rw [hfy, hfx]⟩)
      rw [hnil]
      simp
    · rw [if_neg (by simp [hfx])]
      exact ih hxs

theorem length_filter_id_pair (sid : String) :
    ∀ (l : List Scene),
      (l.filter (fun s => decide (s.id = sid))).length
        + (l.filter (fun s => decide (s.id ≠ sid))).length = l.length := by
  intro l
  induction l with
  | nil => simp
  | cons x xs ih =>
    rw [List.filter_cons, List.filter_cons]
    by_cases h : x.id = sid
    · rw [if_pos (by simp [h]), if_neg (by simp [h])]
      simp only [List.length_cons]
      omega
    · rw [if_neg (by simp [h]), if_pos (by simp [h])]
      simp only [List.length_cons]
      omega

/-! ## Claim theorems -/

/-- C1: for every pair of input strings, `analyzePrompt` returns four integer
scores, each within `[0, 100]`, and each dimension score equals the claimed
clamp `round(max(0, min(100, raw additive total)))` of its raw additive
total (the code rounds before clamping; the two orders agree). -/
theorem c1_analyzePrompt_scores_bounded (img narr : String) :
    (0 ≤ (analyzePrompt img narr).image.score ∧ (analyzePrompt img narr).image.score ≤ 100)
    ∧ (0 ≤ (analyzePrompt img narr).video.score ∧ (analyzePrompt img narr).video.score ≤ 100)
    ∧ (0 ≤ (analyzePrompt img narr).voice.score ∧ (analyzePrompt img narr).voice.score ≤ 100)
    ∧ (0 ≤ (analyzePrompt img narr).overall.score ∧ (analyzePrompt img narr).overall.score ≤ 100)
    ∧ (analyzePrompt img narr).image.score = jsRound (max 0 (min 100 (imageRaw img)))
    ∧ (analyzePrompt img narr).video.score = jsRound (max 0 (min 100 (videoRaw img)))
    ∧ (analyzePrompt img narr).voice.score = jsRound (max 0 (min 100 (voiceRaw narr))) := by
  have hi0 : 0 ≤ clampRoundCode (imageRaw img) := clampRoundCode_nonneg _
  have hi1 : clampRoundCode (imageRaw img) ≤ 100 := clampRoundCode_le_100 _
  have hv0 : 0 ≤ clampRoundCode (videoRaw img) := clampRoundCode_nonneg _
  have hv1 : clampRoundCode (videoRaw img) ≤ 100 := clampRoundCode_le_100 _
  have hw0 : 0 ≤ clampRoundCode (voiceRaw narr) := clampRoundCode_nonneg _
  have hw1 : clampRoundCode (voiceRaw narr) ≤ 100 := clampRoundCode_le_100 _
  refine ⟨⟨hi0, hi1⟩, ⟨hv0, hv1⟩, ⟨hw0, hw1⟩, ⟨?_, ?_⟩,
    clampRoundCode_eq_round_clamp _, clampRoundCode_eq_round_clamp _,
    clampRoundCode_eq_round_clamp _⟩
  · show 0 ≤ jsRound (((clampRoundCode (imageRaw img) + clampRoundCode (videoRaw img)
      + clampRoundCode (voiceRaw narr) : ℤ) : ℚ) / 3)
    apply jsRound_nonneg
    apply div_nonneg _ (by norm_num)
    push_cast
    have hi0' : (0 : ℚ) ≤ (clampRoundCode (imageRaw img) : ℚ) := by exact_mod_cast hi0
    have hv0' : (0 : ℚ) ≤ (clampRoundCode (videoRaw img) : ℚ) := by exact_mod_cast hv0
    have hw0' : (0 : ℚ) ≤ (clampRoundCode (voiceRaw narr) : ℚ) := by exact_mod_cast hw0
    linarith
  · show jsRound (((clampRoundCode (imageRaw img) + clampRoundCode (videoRaw img)
      + clampRoundCode (voiceRaw narr) : ℤ) : ℚ) / 3) ≤ 100
    apply jsRound_le_100
    rw [div_le_iff (by norm_num : (0 : ℚ) < 3)]
    push_cast
    have hi1' : (clampRoundCode (imageRaw img) : ℚ) ≤ 100 := by exact_mod_cast hi1
    have hv1' : (clampRoundCode (videoRaw img) : ℚ) ≤ 100 := by exact_mod_cast hv1
    have hw1' : (clampRoundCode (voiceRaw narr) : ℚ) ≤ 100 := by exact_mod_cast hw1
    linarith

/-- C2: the overall score is the rounded mean of the three dimension scores,
the readiness label is the step function of the overall score, and that step
function takes the claimed values at the 39/40/59/60/79/80 boundaries. -/
theorem c2_overall_mean_and_readiness (img narr : String) :
    (analyzePrompt img narr).overall.score
      = jsRound ((((analyzePrompt img narr).image.score
          + (analyzePrompt img narr).video.score
          + (analyzePrompt img narr).voice.score : ℤ) : ℚ) / 3)
    ∧ (analyzePrompt img narr).overall.readiness
      = readinessOf ((analyzePrompt img narr).overall.score)
    ∧ readinessOf 80 = Readiness.productionReady
    ∧ readinessOf 79 = Readiness.good
    ∧ readinessOf 60 = Readiness.good
    ∧ readinessOf 59 = Readiness.needsWork
    ∧ readinessOf 40 = Readiness.needsWork
    ∧ readinessOf 39 = Readiness.poor := by
  refine ⟨rfl, rfl, ?_, ?_, ?_, ?_, ?_, ?_⟩ <;> decide

/-- C6: removing a scene from a single-scene collection is refused and the
collection is returned unchanged; and on any non-empty collection with
pairwise distinct scene ids, `removeScene` leaves at least one scene. -/
theorem c6_removeScene_refuses_last (scenes : List Scene) (sid : String) :
    (scenes.length = 1 → removeScene scenes sid = (true, scenes))
    ∧ ((scenes.map Scene.id).Nodup → scenes ≠ [] →
        1 ≤ ((removeScene scenes sid).2).length) := by
  constructor
  · intro h1
    unfold removeScene
    rw [if_pos (by omega)]
  · intro hnd hne
    unfold removeScene
    by_cases hlen : scenes.length ≤ 1
    · rw [if_pos hlen]
      have h0 : scenes.length ≠ 0 := fun h => hne (List.length_eq_zero.mp h)
      show 1 ≤ scenes.length
      omega
    · rw [if_neg hlen]
      show 1 ≤ (((scenes.filter (fun s => decide (s.id ≠ sid))).enum).map
        (fun p => { p.2 with scene_order := (p.1 : ℤ) + 1 })).length
      rw [List.length_map, List.enum_length]
      have hone := filter_id_eq_length_le_one (f := Scene.id) (a := sid) hnd
      have hpair := length_filter_id_pair sid scenes
      omega

/-- Sample scene used to exhibit the C6 guarantees at a concrete input. -/
def c6sceneA : Scene :=
  { id := ("1"), scene_order := 1, image_prompt := ("a"),
    narration_script := ("b"), analysis := none }

/-- Second sample scene for the two-scene C6 instance. -/
def c6sceneB : Scene :=
  { id := ("2"), scene_order := 2, image_prompt := ("c"),
    narration_script := ("d"), analysis := none }

/-- Witness for C6: the hypotheses are satisfiable — the one-scene refusal
and the size preservation hold at concrete collections. -/
theorem c6_removeScene_refuses_last_witness :
    removeScene [c6sceneA] ("1") = (true, [c6sceneA])
    ∧ 1 ≤ ((removeScene [c6sceneA, c6sceneB] ("1")).2).length :=
  ⟨(c6_removeScene_refuses_last [c6sceneA] ("1")).1 (by decide),
   (c6_removeScene_refuses_last [c6sceneA, c6sceneB] ("1")).2 (by decide) (by decide)⟩

/-- C9: on input consisting only of whitespace characters (the empty string
included), all three optimizers return the empty string. -/
theorem c9_optimizers_empty_on_whitespace (s : String)
    (h : ∀ c ∈ s.data, isWsChar c = true) :
    optimizeImagePrompt s = ("")
    ∧ optimizeVideoPrompt s = ("")
    ∧ optimizeVoiceScript s = ("") := by
  have ht : jsTrim s = ("") := jsTrim_eq_empty h
  refine ⟨?_, ?_, ?_⟩
  · unfold optimizeImagePrompt
    rw [if_pos ht]
  · unfold optimizeVideoPrompt
    rw [if_pos ht]
  · unfold optimizeVoiceScript
    rw [if_pos ht]

/-- Witness for C9 at a concrete whitespace-only string. -/
theorem c9_optimizers_empty_on_whitespace_witness :
    optimizeImagePrompt (" \t ") = ("")
    ∧ optimizeVideoPrompt (" \t ") = ("")
    ∧ optimizeVoiceScript (" \t ") = ("") :=
  c9_optimizers_empty_on_whitespace (" \t ") (by decide)

/-- C10: when no scene of the collection carries an analysis, the
project-level overall result is absent rather than a zero score. -/
theorem c10_overall_absent_when_unanalyzed (scenes : List Scene)
    (h : ∀ s ∈ scenes, s.analysis = none) :
    getOverallAnalysis scenes = none := by
  unfold getOverallAnalysis
  have hf : scenes.filter (fun s => s.analysis.isSome) = [] := by
    rw [List.filter_eq_nil_iff]
    intro s hs
    rw [h s hs]
    simp
  simp [hf]

/-- Sample unanalyzed scene for the C10 witness. -/
def c10scene : Scene :=
  { id := ("7"), scene_order := 1, image_prompt := ("x"),
    narration_script := ("y"), analysis := none }

/-- Witness for C10 at a concrete unanalyzed collection. -/
theorem c10_overall_absent_when_unanalyzed_witness :
    getOverallAnalysis [c10scene] = none :=
  c10_overall_absent_when_unanalyzed [c10scene] (by decide)

/-- The concrete three-scene collection witnessing the C3 round-trip break:
a comma, an embedded double quote, and a line break in the text fields. -/
def c3scenes : List Scene :=
  [{ id := ("1"), scene_order := 1, image_prompt := ("Intro scene"),
     narration_script := ("Welcome to the lesson"), analysis := none },
   { id := ("2"), scene_order := 2, image_prompt := ("A red, blue sky"),
     narration_script := ("Second part"), analysis := none },
   { id := ("3"), scene_order := 3, image_prompt := ("Say \x22hi\x22 now"),
     narration_script := ("Line one\nLine two"), analysis := none }]

/-- The single comma-carrying scene of `c3scenes`, used to exhibit how
the import truncates its fields. -/
def c3commaScene : Scene :=
  { id := ("2"), scene_order := 2, image_prompt := ("A red, blue sky"),
    narration_script := ("Second part"), analysis := none }

/-- C3 (failing evaluation): exporting the three-scene collection and then
re-importing the result does not reproduce the `(order, imagePrompt,
narrationScript)` triples, and on the comma-carrying scene alone the
resulting image prompt is the text before the comma while the narration
field receives the text after it. -/
theorem c3_roundtrip_fails :
    ((importCSV (exportToCSV c3scenes)).toOption).map (List.map sceneTriple)
      ≠ some (c3scenes.map sceneTriple)
    ∧ ((importCSV (exportToCSV [c3commaScene])).toOption).map (List.map sceneTriple)
      = some [(2, ("A red"), ("blue sky"))] := by
  decide

/-- The C4 counterexample input: long enough, carries the educational-tone
keyword `learn`, but no `explain` or `narrat`. -/
def c4bad : String :=
  ("They will learn about colors and shapes in this fun lesson today.")

/-- Counterexample to C4 as stated: a string of length at least 50 that
contains an educational-tone keyword, on which `optimizeVoiceScript` is not
the identity — the narration-structure clause is appended because the text
contains neither `explain` nor `narrat`. -/
theorem c4_counterexample :
    50 ≤ c4bad.length
    ∧ eduToneWords.any (fun w => jsIncludes (lowerStr c4bad) w) = true
    ∧ optimizeVoiceScript c4bad ≠ c4bad := by
  decide

/-- C4 as amended: on trimmed text of length at least 50 that contains an
educational-tone keyword and also contains `explain` or `narrat`
(case-insensitively), `optimizeVoiceScript` appends nothing and returns its
input unchanged. -/
theorem c4_amended_identity (s : String) (h50 : 50 ≤ s.length)
    (hedu : eduToneWords.any (fun w => jsIncludes (lowerStr s) w) = true)
    (hnarr : jsIncludes (lowerStr s) ("explain") = true
      ∨ jsIncludes (lowerStr s) ("narrat") = true)
    (htrim : jsTrim s = s) :
    optimizeVoiceScript s = s := by
  unfold optimizeVoiceScript
  have hne : jsTrim s ≠ ("") := by
    rw [htrim]
    intro h
    rw [h] at h50
    exact absurd h50 (by decide)
  rw [if_neg hne]
  have hcond1 : (!(jsIncludes (lowerStr s) ("explain")) &&
      !(jsIncludes (lowerStr s) ("narrat"))) = false := by
    rcases hnarr with h | h <;> simp [h]
  have hcond3 : ¬(s.length < 50) := by omega
  simp only [hcond1, Bool.false_eq_true, if_false, hedu, Bool.not_true,
    if_neg hcond3]
  exact htrim

/-- The C4 witness input: trimmed, long enough, contains `explain` and
`learn`. -/
def c4good : String :=
  ("Here we explain ideas so you learn about shapes and colors together.")

/-- Witness for C4 as amended, at a concrete input satisfying every
hypothesis. -/
theorem c4_amended_identity_witness :
    optimizeVoiceScript c4good = c4good :=
  c4_amended_identity c4good (by decide) (by decide) (Or.inl (by decide)) (by decide)

/-- Counterexample to C5 as stated: on an input with leading whitespace the
code counts one extra syllable for the empty boundary token, and on an input
with a whitespace-only sentence segment the code drops that segment while
the claimed non-empty-segment count keeps it — the returned values differ
from the claimed formula in both cases. -/
theorem c5_counterexample :
    calculateFleschKincaid (" Hi.") ≠ fleschClaimed (" Hi.")
    ∧ calculateFleschKincaid ("Hi. .") ≠ fleschClaimed ("Hi. .") := by
  constructor
  · have h1 : fkSentences (" Hi.") = 1 := by decide
    have h2 : fkWords (" Hi.") = 1 := by decide
    have h3 : fkSyllables (" Hi.") = 2 := by decide
    have h4 : fcSentences (" Hi.") = 1 := by decide
    have h5 : fcSyllables (" Hi.") = 1 := by decide
    rw [calculateFleschKincaid, fleschClaimed, h1, h2, h3, h4, h5]
    norm_num
  · have h1 : fkSentences ("Hi. .") = 1 := by decide
    have h2 : fkWords ("Hi. .") = 2 := by decide
    have h3 : fkSyllables ("Hi. .") = 2 := by decide
    have h4 : fcSentences ("Hi. .") = 2 := by decide
    have h5 : fcSyllables ("Hi. .") = 2 := by decide
    rw [calculateFleschKincaid, fleschClaimed, h1, h2, h3, h4, h5]
    norm_num

/-- C5 as amended: the code's readability equals the claimed formula once
sentences are counted as segments containing a non-whitespace character and
syllables are summed over all whitespace-split segments, the empty boundary
segments of leading or trailing whitespace counting one syllable each. -/
theorem c5_amended_formula (text : String) :
    calculateFleschKincaid text = fleschAmended text := by
  have h1 : fkSentences text = faSentences text := by
    unfold fkSentences faSentences
    congr 1
    apply List.filter_congr
    intro seg _
    rw [Bool.eq_iff_iff]
    simp only [decide_eq_true_eq]
    exact trimChars_ne_nil_iff
  have h2 : fkSyllables text = faSyllables text := by
    unfold fkSyllables faSyllables
    rw [foldl_add_max_eq_sum]
    omega
  unfold calculateFleschKincaid fleschAmended
  rw [h1, h2]

/-- The C7 counterexample file: a header and one row whose two text fields
are both empty. -/
def c7csv : String :=
  ("scene_order,image_prompt,narration_script\n1,\x22\x22,\x22\x22")

/-- Counterexample to C7 as stated: the row with both text fields empty
is imported as a scene, so the import yields one scene where the claim
predicts zero. -/
theorem c7_counterexample :
    (importCSV c7csv).toOption
      = some [{ id := ("1"), scene_order := 1, image_prompt := (""),
                narration_script := (""), analysis := none }]
    ∧ (importCSV c7csv).toOption.map List.length ≠ some 0 := by
  decide

/-- C7 as amended: only blank (whitespace-only) lines are excluded; every
remaining data row becomes a scene, rows with both text fields empty
included, so a successful import yields exactly one scene per non-blank
line after the header. -/
theorem c7_amended_import_count (csv : String) (l : List Scene)
    (h : importCSV csv = Except.ok l) :
    l.length + 1 = (nonBlankLines csv).length := by
  unfold importCSV at h
  cases hnb : nonBlankLines csv with
  | nil =>
    rw [hnb] at h
    exact Except.noConfusion h
  | cons header dataLines =>
    rw [hnb] at h
    simp only [] at h
    split at h
    · rw [Except.ok.injEq] at h
      rw [← h, List.length_map, List.enum_length, List.length_cons]
    · exact Except.noConfusion h

/-- The C7 witness file: a header and two rows, the second with both text
fields empty. -/
def c7csvW : String :=
  ("scene_order,image_prompt,narration_script\n1,\x22a\x22,\x22b\x22\n2,\x22\x22,\x22\x22")

/-- The scenes the witness file imports to. -/
def c7importedW : List Scene :=
  [{ id := ("1"), scene_order := 1, image_prompt := ("a"),
     narration_script := ("b"), analysis := none },
   { id := ("2"), scene_order := 2, image_prompt := (""),
     narration_script := (""), analysis := none }]

/-- Witness for C7 as amended: the import hypothesis is satisfiable and the
count law holds at the concrete file. -/
theorem c7_amended_import_count_witness :
    c7importedW.length + 1 = (nonBlankLines c7csvW).length :=
  c7_amended_import_count c7csvW c7importedW (by rfl)

/-- Counterexample to C8 as stated: on a token whose first character is
uppercase but whose remaining characters include a digit, the code keeps the
token — the digit is unchanged by lowercasing — while the claimed
all-lowercase condition rejects it. -/
theorem c8_counterexample :
    detectProperNouns ("See A1b go") ≠ properNounsClaimed ("See A1b go") := by
  decide

/-- C8 as amended: the detected tokens are exactly those of length > 2 whose
first character is not a lowercase ASCII letter and whose remaining
characters contain no uppercase ASCII letter — digits and punctuation
satisfy both case conditions — excluding the stopwords, in order of
occurrence. -/
theorem c8_amended_characterization (text : String) :
    detectProperNouns text = properNounsAmended text := by
  unfold detectProperNouns properNounsAmended
  apply List.filter_congr
  intro w _
  cases hw : w.data with
  | nil => rfl
  | cons c rest =>
    dsimp only
    have hX : decide (jsToUpper c = c) = !(c.isLower) := by
      rw [Bool.eq_iff_iff]
      simp only [decide_eq_true_eq, Bool.not_eq_true']
      exact jsToUpper_fixed_iff c
    have hY : decide (rest.map jsToLower = rest) = rest.all (fun d => !(d.isUpper)) := by
      rw [Bool.eq_iff_iff]
      simp only [decide_eq_true_eq, List.all_eq_true, Bool.not_eq_true']
      constructor
      · intro h d hd
        exact (jsToLower_fixed_iff d).mp (map_eq_self_iff_all_fixed.mp h d hd)
      · intro h
        exact map_eq_self_iff_all_fixed.mpr (fun d hd => (jsToLower_fixed_iff d).mpr (h d hd))
    rw [hX, hY]
